import Mathlib

/-!
Shallow embedding of the ofxAudioUnit addon (files `ofxAudioUnit.h` and
`ofxAudioUnitSampler.cpp`) for verifying its specification.

Modelling conventions:
* `UInt32` / `UInt64` values are `Nat` reduced modulo `2 ^ 32` / `2 ^ 64`
  at the points where the C++ performs an implicit conversion.
* The opaque platform handle produced by `initUnit` is modelled as a fresh
  identifier drawn from a monotone counter `world`: every unit instance that
  already exists has an id `< world`, and instantiating a new unit returns
  the id `world` together with the bumped counter.  Sharing of the
  underlying unit between two wrapper objects is then equality of ids.
* A C++ data member that no constructor initializes is modelled by a `junk`
  parameter: the field receives whatever indeterminate value `junk` the
  memory held, so any dependence of observable behaviour on `junk` shows
  the behaviour is unspecified.
* Calls into the platform entry point `MusicDeviceMIDIEvent` are modelled
  as an emitted list of `MIDIEvent` records (status, data1, data2,
  sample-offset), in call order.
-/

/-- Four-char code `aumu` (`kAudioUnitType_MusicDevice`). -/
def kAudioUnitType_MusicDevice : Nat := 0x61756D75

/-- Four-char code `samp` (`kAudioUnitSubType_Sampler`). -/
def kAudioUnitSubType_Sampler : Nat := 0x73616D70

/-- Four-char code `appl` (`kAudioUnitManufacturer_Apple`). -/
def kAudioUnitManufacturer_Apple : Nat := 0x6170706C

/-- `AudioComponentDescription`: the descriptor triple (plus flag fields)
identifying which underlying audio unit kind to instantiate. -/
structure AudioComponentDescription where
  componentType : Nat
  componentSubType : Nat
  componentManufacturer : Nat
  componentFlags : Nat
  componentFlagsMask : Nat
deriving Repr, DecidableEq

/-- The file-scope `samplerDesc` constant of `ofxAudioUnitSampler.cpp`
(AUSampler branch, lines 5-9). -/
def samplerDesc : AudioComponentDescription :=
  ⟨kAudioUnitType_MusicDevice, kAudioUnitSubType_Sampler,
   kAudioUnitManufacturer_Apple, 0, 0⟩

/-- One call to `MusicDeviceMIDIEvent(*_unit, status, data1, data2, offset)`. -/
structure MIDIEvent where
  status : Nat
  data1 : Nat
  data2 : Nat
  offset : Nat
deriving Repr, DecidableEq

/-- `initUnit()` resolves the descriptor to a newly instantiated underlying
unit.  Modelled as drawing a fresh id from the `world` counter. -/
def initUnit (world : Nat) : Nat × Nat := (world, world + 1)

/-- The `ofxAudioUnitSampler` object state: the inherited `_desc` and
`_unit` members plus the public `midiChannelInUse` member
(`ofxAudioUnit.h` lines 28, 30, 263). -/
structure OfxAudioUnitSampler where
  desc : AudioComponentDescription
  unit : Nat
  midiChannelInUse : Nat
deriving Repr, DecidableEq

/-- MIDI command codes from the anonymous enum in `ofxAudioUnit.h`
lines 265-272. -/
def kMidiMessage_ControlChange : Nat := 0xB

def kMidiMessage_ProgramChange : Nat := 0xC

def kMidiMessage_BankMSBControl : Nat := 0

def kMidiMessage_BankLSBControl : Nat := 32

def kMidiMessage_NoteOn : Nat := 0x9

def kMidiMessage_NoteOff : Nat := 0x8

/-- Default constructor (`ofxAudioUnitSampler.cpp` lines 12-17):
`_desc = samplerDesc; initUnit();`.  `midiChannelInUse` is left
uninitialized, i.e. it holds the indeterminate value `junk`. -/
def mkSamplerDefault (junk world : Nat) : OfxAudioUnitSampler × Nat :=
  let (u, w) := initUnit world
  (⟨samplerDesc, u, junk⟩, w)

/-- Constructor from type/subType/manufacturer (`ofxAudioUnitSampler.cpp`
lines 20-31).  `midiChannelInUse` is again left uninitialized. -/
def mkSamplerTSM (type subType manufacturer junk world : Nat) :
    OfxAudioUnitSampler × Nat :=
  let (u, w) := initUnit world
  (⟨⟨type % 2 ^ 32, subType % 2 ^ 32, manufacturer % 2 ^ 32, 0, 0⟩, u, junk⟩, w)

/-- Copy constructor (`ofxAudioUnitSampler.cpp` lines 34-39):
`_desc = orig._desc; initUnit();` — the unit is re-resolved fresh, and
`midiChannelInUse` is left uninitialized (not copied from `orig`). -/
def samplerCopyCtor (orig : OfxAudioUnitSampler) (junk world : Nat) :
    OfxAudioUnitSampler × Nat :=
  let (u, w) := initUnit world
  (⟨orig.desc, u, junk⟩, w)

/-- Copy assignment (`ofxAudioUnitSampler.cpp` lines 42-51):
`if(this == &orig) return *this; _desc = orig._desc; _unit = orig._unit;`.
The `sameObject` flag models the `this == &orig` self-assignment test.
Note the unit handle is copied (shared), not re-resolved. -/
def samplerAssign (sameObject : Bool) (self orig : OfxAudioUnitSampler) :
    OfxAudioUnitSampler :=
  if sameObject then self
  else { self with desc := orig.desc, unit := orig.unit }

/-- `setChannel` (`ofxAudioUnit.h` line 258): `midiChannelInUse = chan;`
with the argument converted to `UInt32`. -/
def setChannel (s : OfxAudioUnitSampler) (chan : Nat) : OfxAudioUnitSampler :=
  { s with midiChannelInUse := chan % 2 ^ 32 }

/-- `midiEvent` (`ofxAudioUnitSampler.cpp` lines 134-136): forwards the raw
status/data bytes with sample-offset 0. -/
def midiEvent (s : OfxAudioUnitSampler) (status data1 data2 : Nat) :
    List MIDIEvent :=
  [⟨status % 2 ^ 32, data1 % 2 ^ 32, data2 % 2 ^ 32, 0⟩]

/-- `midiNoteOn` (`ofxAudioUnitSampler.cpp` lines 161-169):
`noteOnCommand = kMidiMessage_NoteOn << 4 | midiChannelInUse`, then one
`MusicDeviceMIDIEvent(*_unit, noteOnCommand, note, vel, 0)`. -/
def midiNoteOn (s : OfxAudioUnitSampler) (note vel : Nat) : List MIDIEvent :=
  [⟨(kMidiMessage_NoteOn <<< 4) ||| s.midiChannelInUse,
    note % 2 ^ 32, vel % 2 ^ 32, 0⟩]

/-- `midiNoteOff` (`ofxAudioUnitSampler.cpp` lines 171-179). -/
def midiNoteOff (s : OfxAudioUnitSampler) (note vel : Nat) : List MIDIEvent :=
  [⟨(kMidiMessage_NoteOff <<< 4) ||| s.midiChannelInUse,
    note % 2 ^ 32, vel % 2 ^ 32, 0⟩]

/-- `setBank` (`ofxAudioUnitSampler.cpp` lines 138-149): two control-change
events (bank MSB then bank LSB), each with sample-offset 0. -/
def setBank (s : OfxAudioUnitSampler) (msb lsb : Nat) : List MIDIEvent :=
  [⟨(kMidiMessage_ControlChange <<< 4) ||| s.midiChannelInUse,
    kMidiMessage_BankMSBControl, msb % 2 ^ 32, 0⟩,
   ⟨(kMidiMessage_ControlChange <<< 4) ||| s.midiChannelInUse,
    kMidiMessage_BankLSBControl, lsb % 2 ^ 32, 0⟩]

/-- `setProgram` (`ofxAudioUnitSampler.cpp` lines 151-157). -/
def setProgram (s : OfxAudioUnitSampler) (prog : Nat) : List MIDIEvent :=
  [⟨(kMidiMessage_ProgramChange <<< 4) ||| s.midiChannelInUse,
    prog % 2 ^ 32, 0, 0⟩]

/-- `setSample` (`ofxAudioUnitSampler.cpp` lines 55-77, AUSampler branch):
the result of the external `AudioUnitSetProperty` call is `loadStatus`
(an OSStatus, `0` meaning success); the function merely prints on error
via `OFXAU_PRINT` and then executes `return true` unconditionally. -/
def setSample (loadStatus : Int) : Bool := true

/-- `setSamples` (`ofxAudioUnitSampler.cpp` lines 80-106): same external
call whose OSStatus is `loadStatus`, but the function body contains no
`return` statement at all, so the `bool` the caller sees is an
indeterminate value, modelled by `junkReturn`. -/
def setSamples (loadStatus : Int) (junkReturn : Bool) : Bool := junkReturn

/-- The MIDI-emitting and channel-setting operations of the sampler, for
reasoning about call sequences. -/
inductive SamplerOp where
  | noteOn (note vel : Nat)
  | noteOff (note vel : Nat)
  | bank (msb lsb : Nat)
  | program (prog : Nat)
  | channel (chan : Nat)
deriving Repr, DecidableEq

/-- Whether an operation is a `setChannel` call. -/
def SamplerOp.isSetChannel : SamplerOp → Bool
  | .channel _ => true
  | _ => false

/-- Run one sampler operation: the resulting object state and the MIDI
events sent to `MusicDeviceMIDIEvent`. -/
def runOp (s : OfxAudioUnitSampler) : SamplerOp → OfxAudioUnitSampler × List MIDIEvent
  | .noteOn n v => (s, midiNoteOn s n v)
  | .noteOff n v => (s, midiNoteOff s n v)
  | .bank m l => (s, setBank s m l)
  | .program p => (s, setProgram s p)
  | .channel c => (setChannel s c, [])

/-- Run a sequence of sampler operations, concatenating emitted events. -/
def runOps (s : OfxAudioUnitSampler) : List SamplerOp → OfxAudioUnitSampler × List MIDIEvent
  | [] => (s, [])
  | op :: rest =>
    ((runOps (runOp s op).1 rest).1,
     (runOp s op).2 ++ (runOps (runOp s op).1 rest).2)

/-- For the four command nibbles the sampler uses, or-ing a channel below 16
into a left-shifted command keeps the channel as the low nibble. -/
theorem statusLowNibble (cmd chan : Nat) (hcmd : cmd = 0x8 ∨ cmd = 0x9 ∨ cmd = 0xB ∨ cmd = 0xC)
    (hchan : chan < 16) : ((cmd <<< 4) ||| chan) &&& 15 = chan := by
  rcases hcmd with h | h | h | h <;> subst h <;> interval_cases chan <;> decide

/-- For a channel below 16, or-ing it into a shifted command nibble is plain
addition (the bit ranges are disjoint). -/
theorem statusAsAdd (cmd chan : Nat) (hcmd : cmd = 0x8 ∨ cmd = 0x9 ∨ cmd = 0xB ∨ cmd = 0xC)
    (hchan : chan < 16) : (cmd <<< 4) ||| chan = cmd * 16 + chan := by
  rcases hcmd with h | h | h | h <;> subst h <;> interval_cases chan <;> decide

/-- Shape of one pre-allocated `AudioBufferList`: channel count and
sample-frame capacity. -/
structure ABLShape where
  channels : Nat
  frames : Nat
deriving Repr, DecidableEq

/-- `ofxAudioUnitInput::RingBuffer` state (`ofxAudioUnit.h` lines 177-194):
a vector of pre-allocated buffer lists plus the `UInt64` members
`_readItrIndex` and `_writeItrIndex` (monotone cursors; the wrapping
iterators address slot `index % slots.length`). -/
structure RingBuffer where
  slots : List ABLShape
  readItrIndex : Nat
  writeItrIndex : Nat
deriving Repr, DecidableEq

/-- Modelled from the spec: the body of the `RingBuffer` constructor is not
in `src` (only its declaration, `ofxAudioUnit.h` lines 184-186, which
carries the default arguments `buffers = 3`, `channelsPerBuffer = 2`,
`samplesPerBuffer = 512`).  Spec §3/§4.3: a fixed number of slots, each
holding one pre-allocated buffer list of `channelsPerBuffer` channels by
`samplesPerBuffer` frames; cursors start equal (buffer empty). -/
def mkRingBuffer (buffers : Nat := 3) (channelsPerBuffer : Nat := 2)
    (samplesPerBuffer : Nat := 512) : RingBuffer :=
  ⟨List.replicate buffers ⟨channelsPerBuffer, samplesPerBuffer⟩, 0, 0⟩

/-- Modelled from the spec: the body of `RingBuffer::advanceReadHead` is not
in `src` (declaration only, `ofxAudioUnit.h` line 189).  Spec §4.3:
succeeds and advances the read cursor by one slot iff the read cursor
differs from the write cursor; otherwise fails with no cursor movement. -/
def advanceReadHead (rb : RingBuffer) : Bool × RingBuffer :=
  if rb.readItrIndex ≠ rb.writeItrIndex then
    (true, { rb with readItrIndex := (rb.readItrIndex + 1) % 2 ^ 64 })
  else
    (false, rb)

/-- Modelled from the spec: the body of `RingBuffer::advanceWriteHead` is
not in `src` (declaration only, `ofxAudioUnit.h` line 190).  Spec §4.3:
always succeeds, unconditionally advancing the write cursor by one slot. -/
def advanceWriteHead (rb : RingBuffer) : RingBuffer :=
  { rb with writeItrIndex := (rb.writeItrIndex + 1) % 2 ^ 64 }

/-- `n` consecutive `advanceWriteHead` calls. -/
def writeN (rb : RingBuffer) : Nat → RingBuffer
  | 0 => rb
  | n + 1 => writeN (advanceWriteHead rb) n

/-- `n` consecutive `advanceReadHead` calls; the flag is `true` iff every
one of them succeeded. -/
def readN (rb : RingBuffer) : Nat → Bool × RingBuffer
  | 0 => (true, rb)
  | n + 1 =>
    ((advanceReadHead rb).1 && (readN (advanceReadHead rb).2 n).1,
     (readN (advanceReadHead rb).2 n).2)

/-- A node's connection-relevant state: its current input-bus count and the
render callbacks installed on its input buses, as an association list
`destinationBus ↦ producing unit id`. -/
structure UnitConnState where
  inputBusCount : Nat
  callbacks : List (Nat × Nat)
deriving Repr, DecidableEq

/-- Modelled from the spec: the body of `ofxAudioUnit::connectTo` is not in
`src` (declaration only, `ofxAudioUnit.h` line 46).  Spec §4.1: registers
on `other`'s `destinationBus` a render callback that invokes this node's
render; when `destinationBus` is not below `other`'s current input-bus
count the operation is a no-op (no callback installed).  The state
returned is `other`'s updated connection state. -/
def connectTo (selfUnit : Nat) (other : UnitConnState) (destinationBus : Nat) :
    UnitConnState :=
  if destinationBus < other.inputBusCount then
    { other with callbacks :=
        (destinationBus, selfUnit) ::
          other.callbacks.filter (fun p => p.1 ≠ destinationBus) }
  else other

/-- The value `connectTo` hands back to its caller.  The declaration in
`ofxAudioUnit.h` line 46 returns `void`, so the caller-visible result
carries no information; `Unit` embeds exactly that. -/
def connectToReturn (selfUnit : Nat) (other : UnitConnState)
    (destinationBus sourceBus : Nat) : Unit := ()

/-- `ofxAudioUnitOutput` state: whether the underlying unit is running and
whether it has been released (disposed). -/
structure OutputState where
  running : Bool
  released : Bool
deriving Repr, DecidableEq

/-- Modelled from the spec: the body of `ofxAudioUnitOutput::stop` is not in
`src` (declaration only, `ofxAudioUnit.h` line 168).  Spec §4.2: `stop`
toggles the underlying unit out of the running state; the `bool` result
reports success. -/
def outputStop (s : OutputState) : Bool × OutputState :=
  (true, { s with running := false })

/-- The destructor `~ofxAudioUnitOutput(){stop();}` (`ofxAudioUnit.h` line
165, inline in `src`): it invokes `stop()` first and only then the base
destructor releases the underlying unit. -/
def outputDestroy (s : OutputState) : OutputState :=
  let (_, s1) := outputStop s
  { s1 with released := true }

/-- The output's state at the instant the underlying unit is released
during destruction: after the destructor body's `stop()` call, before
the base-class release. -/
def outputStateAtRelease (s : OutputState) : OutputState :=
  (outputStop s).2

/-- A sampler operation other than `setChannel` leaves the object state
unchanged: the MIDI-emitting calls only read `midiChannelInUse`. -/
theorem runOp_state_preserved (s : OfxAudioUnitSampler) (op : SamplerOp)
    (hop : op.isSetChannel = false) : (runOp s op).1 = s := by
  cases op <;> simp_all [runOp, SamplerOp.isSetChannel]

/-- Every event emitted by one non-`setChannel` sampler operation carries
the current `midiChannelInUse` in the low nibble of its status byte. -/
theorem runOp_events_low_nibble (s : OfxAudioUnitSampler) (op : SamplerOp)
    (hchan : s.midiChannelInUse < 16) (hop : op.isSetChannel = false) :
    ∀ e ∈ (runOp s op).2, e.status &&& 15 = s.midiChannelInUse := by
  cases op with
  | noteOn n v =>
    intro e he
    simp only [runOp, midiNoteOn, List.mem_singleton] at he
    subst he
    exact statusLowNibble kMidiMessage_NoteOn s.midiChannelInUse
      (Or.inr (Or.inl rfl)) hchan
  | noteOff n v =>
    intro e he
    simp only [runOp, midiNoteOff, List.mem_singleton] at he
    subst he
    exact statusLowNibble kMidiMessage_NoteOff s.midiChannelInUse
      (Or.inl rfl) hchan
  | bank m l =>
    intro e he
    simp only [runOp, setBank, List.mem_cons, List.mem_singleton,
      List.not_mem_nil, or_false] at he
    rcases he with he | he <;> subst he <;>
      exact statusLowNibble kMidiMessage_ControlChange s.midiChannelInUse
        (Or.inr (Or.inr (Or.inl rfl))) hchan
  | program p =>
    intro e he
    simp only [runOp, setProgram, List.mem_singleton] at he
    subst he
    exact statusLowNibble kMidiMessage_ProgramChange s.midiChannelInUse
      (Or.inr (Or.inr (Or.inr rfl))) hchan
  | channel c =>
    simp [SamplerOp.isSetChannel] at hop

/-- Across a sequence of non-`setChannel` operations, the object state is
unchanged and every emitted status byte carries the current channel in
its low nibble. -/
theorem runOps_events_low_nibble :
    ∀ (ops : List SamplerOp) (s : OfxAudioUnitSampler),
      s.midiChannelInUse < 16 →
      (∀ op ∈ ops, op.isSetChannel = false) →
      (runOps s ops).1 = s ∧
      ∀ e ∈ (runOps s ops).2, e.status &&& 15 = s.midiChannelInUse
  | [], s, _, _ => by simp [runOps]
  | op :: rest, s, hchan, hops => by
    have hop : op.isSetChannel = false := hops op (List.mem_cons_self op rest)
    have hstate : (runOp s op).1 = s := runOp_state_preserved s op hop
    obtain ⟨ih1, ih2⟩ := runOps_events_low_nibble rest s hchan
      (fun o ho => hops o (List.mem_cons_of_mem op ho))
    constructor
    · simp only [runOps, hstate, ih1]
    · intro e he
      simp only [runOps, hstate, List.mem_append] at he
      rcases he with he | he
      · exact runOp_events_low_nibble s op hchan hop e he
      · exact ih2 e he

/-- `advanceWriteHead` never touches the read cursor or the slots, and `n`
writes advance the write cursor by `n` modulo `2 ^ 64`. -/
theorem writeN_cursors :
    ∀ (n : Nat) (slots : List ABLShape) (r w : Nat), w < 2 ^ 64 →
      writeN ⟨slots, r, w⟩ n = ⟨slots, r, (w + n) % 2 ^ 64⟩
  | 0, slots, r, w, hw => by
    simp [writeN, Nat.mod_eq_of_lt hw]
    omega
  | n + 1, slots, r, w, hw => by
    have h1 : advanceWriteHead ⟨slots, r, w⟩ = ⟨slots, r, (w + 1) % 2 ^ 64⟩ := by
      simp [advanceWriteHead]
    have ih := writeN_cursors n slots r ((w + 1) % 2 ^ 64)
      (Nat.mod_lt _ (by norm_num))
    simp only [writeN, h1, ih, RingBuffer.mk.injEq, true_and]
    rw [Nat.mod_add_mod]
    congr 1
    omega

/-- When the write cursor is at least `M` ahead of the read cursor (and no
`UInt64` wraparound is in play), `M` consecutive reads all succeed and
advance the read cursor by exactly `M`. -/
theorem readN_all_succeed :
    ∀ (M : Nat) (slots : List ABLShape) (r w : Nat),
      r + M ≤ w → w < 2 ^ 64 →
      readN ⟨slots, r, w⟩ M = (true, ⟨slots, r + M, w⟩)
  | 0, slots, r, w, _, _ => by simp [readN]
  | M + 1, slots, r, w, h, hw => by
    have hne : r ≠ w := by omega
    have hmod : (r + 1) % 2 ^ 64 = r + 1 := Nat.mod_eq_of_lt (by omega)
    have hstep : advanceReadHead ⟨slots, r, w⟩ = (true, ⟨slots, r + 1, w⟩) := by
      simp [advanceReadHead, hne, hmod]
      omega
    have ih := readN_all_succeed M slots (r + 1) w (by omega) hw
    simp [readN, hstep, ih, RingBuffer.mk.injEq]
    omega

/-- Claim C1 counterexample: assignment does not give the target a newly
instantiated underlying unit — after `t = s` the target holds exactly the
source's unit handle (here id 0), i.e. the instance is shared. -/
theorem C1_counterexample :
    (samplerAssign false (⟨⟨1, 2, 3, 0, 0⟩, 1, 7⟩ : OfxAudioUnitSampler)
        (⟨samplerDesc, 0, 5⟩ : OfxAudioUnitSampler)).unit =
      (⟨samplerDesc, 0, 5⟩ : OfxAudioUnitSampler).unit ∧
    (⟨samplerDesc, 0, 5⟩ : OfxAudioUnitSampler).unit = 0 := by decide

/-- Claim C1 (amended): copy-construction of a sampler re-resolves a newly
instantiated underlying unit from the source's descriptor (never shared
with the source), but assignment copies the source's unit handle, so
after assignment source and target share the same underlying unit
instance and no new unit is instantiated. -/
theorem C1_copy_fresh_assign_shares (orig t s : OfxAudioUnitSampler)
    (junk world : Nat) (hfresh : orig.unit < world) :
    ((samplerCopyCtor orig junk world).1.unit = world ∧
     (samplerCopyCtor orig junk world).1.unit ≠ orig.unit ∧
     (samplerCopyCtor orig junk world).1.desc = orig.desc) ∧
    (samplerAssign false t s).unit = s.unit ∧
    (samplerAssign false t s).desc = s.desc := by
  refine ⟨⟨rfl, ?_, rfl⟩, by simp [samplerAssign], by simp [samplerAssign]⟩
  simp [samplerCopyCtor, initUnit]
  omega

/-- Claim C1 witness: the amended statement applied at a concrete sampler
(unit id 0) and world counter 1. -/
theorem C1_witness :
    (⟨samplerDesc, 0, 5⟩ : OfxAudioUnitSampler).unit < 1 ∧
    (samplerCopyCtor (⟨samplerDesc, 0, 5⟩ : OfxAudioUnitSampler) 7 1).1.unit = 1 :=
  ⟨by decide,
   (C1_copy_fresh_assign_shares ⟨samplerDesc, 0, 5⟩ ⟨samplerDesc, 0, 5⟩
     ⟨samplerDesc, 0, 5⟩ 7 1 (by decide)).1.1⟩

/-- Claim C2 counterexample: `setSample` returns `true` even when the
underlying load fails (OSStatus `-43`, a file-not-found error, is not
the success status `0`), so the boolean does not report load failure. -/
theorem C2_counterexample : setSample (-43) = true ∧ (-43 : Int) ≠ 0 := by
  decide

/-- Claim C2 (amended): the boolean results of the sample-loading
operations do not report whether the sample path could be loaded:
`setSample` returns `true` unconditionally whatever the load status, and
`setSamples` has no return statement, so its result is an indeterminate
value independent of the load status. -/
theorem C2_return_uninformative (st st' : Int) (junk : Bool) :
    setSample st = true ∧ setSample st = setSample st' ∧
    setSamples st junk = junk ∧ setSamples st junk = setSamples st' junk :=
  ⟨rfl, rfl, rfl, rfl⟩

/-- Claim C3: for every note and velocity below `2 ^ 32` and current MIDI
channel `c ≤ 15`, `midiNoteOn` forwards to `MusicDeviceMIDIEvent` exactly
one event with status byte `(0x9 <<< 4) ||| c`, data bytes the note and
the velocity, and a zero sample-offset; in particular `midiNoteOn 60 100`
on channel 3 produces status `(0x9 <<< 4) ||| 3 = 0x93` with data bytes
60 and 100. -/
theorem C3_midiNoteOn_packing (s : OfxAudioUnitSampler) (note vel chan : Nat)
    (hnote : note < 2 ^ 32) (hvel : vel < 2 ^ 32) (hchan : chan ≤ 15) :
    midiNoteOn (setChannel s chan) note vel =
      [⟨(0x9 <<< 4) ||| chan, note, vel, 0⟩] ∧
    midiNoteOn (setChannel s 3) 60 100 = [⟨(0x9 <<< 4) ||| 3, 60, 100, 0⟩] ∧
    (0x9 <<< 4) ||| 3 = 0x93 := by
  have h1 : chan % 2 ^ 32 = chan := Nat.mod_eq_of_lt (by omega)
  have h2 : note % 2 ^ 32 = note := Nat.mod_eq_of_lt hnote
  have h3 : vel % 2 ^ 32 = vel := Nat.mod_eq_of_lt hvel
  refine ⟨?_, ?_, by decide⟩
  · simp only [midiNoteOn, setChannel, kMidiMessage_NoteOn, h1, h2, h3]
  · simp only [midiNoteOn, setChannel, kMidiMessage_NoteOn]
    norm_num

/-- Claim C3 witness: the packing law applied at note 60, velocity 100,
channel 3, on a concretely constructed sampler. -/
theorem C3_witness :
    (60 : Nat) < 2 ^ 32 ∧ (100 : Nat) < 2 ^ 32 ∧ (3 : Nat) ≤ 15 ∧
    midiNoteOn (setChannel (mkSamplerDefault 0 0).1 3) 60 100 =
      [⟨(0x9 <<< 4) ||| 3, 60, 100, 0⟩] :=
  ⟨by norm_num, by norm_num, by norm_num,
   (C3_midiNoteOn_packing (mkSamplerDefault 0 0).1 60 100 3
     (by norm_num) (by norm_num) (by norm_num)).1⟩

/-- Claim C4: the MIDI channel is per-node mutable state: after
`setChannel chan` (with `chan ≤ 15`), every MIDI-emitting call in any
following sequence of operations that contains no further `setChannel`
packs `chan` into the low nibble of its status byte, and the stored
channel is still `chan` afterwards. -/
theorem C4_channel_state (ops : List SamplerOp) (s : OfxAudioUnitSampler)
    (chan : Nat) (hchan : chan ≤ 15)
    (hops : ∀ op ∈ ops, op.isSetChannel = false) :
    (runOps (setChannel s chan) ops).1.midiChannelInUse = chan ∧
    ∀ e ∈ (runOps (setChannel s chan) ops).2, e.status &&& 15 = chan := by
  have hlt : (setChannel s chan).midiChannelInUse < 16 := by
    simp [setChannel]
    omega
  obtain ⟨h1, h2⟩ := runOps_events_low_nibble ops (setChannel s chan) hlt hops
  refine ⟨?_, ?_⟩
  · rw [h1]
    simp [setChannel]
    omega
  · intro e he
    rw [h2 e he]
    simp [setChannel]
    omega

/-- Claim C4 witness: after `setChannel 3`, a concrete sequence of note-on,
bank, program and note-off calls leaves the stored channel equal to 3. -/
theorem C4_witness :
    (3 : Nat) ≤ 15 ∧
    (runOps (setChannel (mkSamplerDefault 0 0).1 3)
      [.noteOn 60 100, .bank 1 2, .program 5, .noteOff 60 0]).1.midiChannelInUse
      = 3 :=
  ⟨by norm_num,
   (C4_channel_state [.noteOn 60 100, .bank 1 2, .program 5, .noteOff 60 0]
     (mkSamplerDefault 0 0).1 3 (by norm_num) (by decide)).1⟩

/-- Claim C5 counterexample: `connectTo` is declared returning `void`, so
the caller-visible result of an out-of-range connect (destination bus 5
on a node with 1 input bus) is identical to that of an in-range connect —
no failure indication reaches the caller — even though (in the
spec-modelled body) no callback is installed and the state is unchanged. -/
theorem C5_counterexample :
    connectToReturn 0 ⟨1, []⟩ 5 0 = connectToReturn 0 ⟨1, []⟩ 0 0 ∧
    connectTo 0 ⟨1, []⟩ 5 = (⟨1, []⟩ : UnitConnState) ∧
    connectTo 0 ⟨1, []⟩ 0 ≠ (⟨1, []⟩ : UnitConnState) := by
  refine ⟨rfl, by decide, by decide⟩

/-- Claim C5 (amended): `connectTo` with a destination bus at or beyond the
other node's current input-bus count installs no callback and leaves the
connection state unchanged, but — being declared `void` — it returns no
failure indication to the caller. -/
theorem C5_out_of_range_noop (selfUnit : Nat) (other : UnitConnState)
    (destinationBus sourceBus : Nat)
    (h : other.inputBusCount ≤ destinationBus) :
    connectTo selfUnit other destinationBus = other ∧
    connectToReturn selfUnit other destinationBus sourceBus = () := by
  refine ⟨?_, rfl⟩
  rw [connectTo, if_neg (by omega)]

/-- Claim C5 witness: the amended statement applied to a node with 1 input
bus and destination bus 5. -/
theorem C5_witness :
    (⟨1, []⟩ : UnitConnState).inputBusCount ≤ 5 ∧
    connectTo 0 ⟨1, []⟩ 5 = (⟨1, []⟩ : UnitConnState) :=
  ⟨by decide, (C5_out_of_range_noop 0 ⟨1, []⟩ 5 0 (by decide)).1⟩

/-- Claim C6: `advanceReadHead` succeeds iff the read cursor differs from
the write cursor, in which case it advances the read cursor by one
(modulo `2 ^ 64`, i.e. one slot of the wrapping iterator) and leaves the
write cursor alone; on failure no cursor moves.  `advanceWriteHead`
always advances the write cursor and never touches the read cursor.
Consequently, starting from a fresh ring buffer, after `N` writes the
first `M ≤ N` reads all succeed and the `(N+1)`-th read without an
intervening write fails. -/
theorem C6_ring_advance (rb : RingBuffer) (N M : Nat) (hMN : M ≤ N)
    (hN : N < 2 ^ 64) :
    ((advanceReadHead rb).1 = true ↔ rb.readItrIndex ≠ rb.writeItrIndex) ∧
    ((advanceReadHead rb).1 = true →
      (advanceReadHead rb).2.readItrIndex = (rb.readItrIndex + 1) % 2 ^ 64 ∧
      (advanceReadHead rb).2.writeItrIndex = rb.writeItrIndex) ∧
    ((advanceReadHead rb).1 = false → (advanceReadHead rb).2 = rb) ∧
    ((advanceWriteHead rb).writeItrIndex = (rb.writeItrIndex + 1) % 2 ^ 64 ∧
      (advanceWriteHead rb).readItrIndex = rb.readItrIndex) ∧
    ((readN (writeN mkRingBuffer N) M).1 = true ∧
      (advanceReadHead (readN (writeN mkRingBuffer N) N).2).1 = false) := by
  have hiff : (advanceReadHead rb).1 = true ↔
      rb.readItrIndex ≠ rb.writeItrIndex := by
    by_cases hne : rb.readItrIndex = rb.writeItrIndex <;>
      simp [advanceReadHead, hne]
  have hmove : (advanceReadHead rb).1 = true →
      (advanceReadHead rb).2.readItrIndex = (rb.readItrIndex + 1) % 2 ^ 64 ∧
      (advanceReadHead rb).2.writeItrIndex = rb.writeItrIndex := by
    by_cases hne : rb.readItrIndex = rb.writeItrIndex <;>
      simp [advanceReadHead, hne]
  have hfail : (advanceReadHead rb).1 = false → (advanceReadHead rb).2 = rb := by
    by_cases hne : rb.readItrIndex = rb.writeItrIndex <;>
      simp [advanceReadHead, hne]
  have hwadv : (advanceWriteHead rb).writeItrIndex =
        (rb.writeItrIndex + 1) % 2 ^ 64 ∧
      (advanceWriteHead rb).readItrIndex = rb.readItrIndex := ⟨rfl, rfl⟩
  have hmk : (mkRingBuffer : RingBuffer) =
      ⟨List.replicate 3 ⟨2, 512⟩, 0, 0⟩ := rfl
  have hN0 : (0 + N) % 2 ^ 64 = N := by omega
  have hwN : writeN mkRingBuffer N = ⟨List.replicate 3 ⟨2, 512⟩, 0, N⟩ := by
    rw [hmk, writeN_cursors N _ 0 0 (by norm_num), hN0]
  refine ⟨hiff, hmove, hfail, hwadv, ?_, ?_⟩
  · rw [hwN, readN_all_succeed M _ 0 N (by omega) hN]
  · rw [hwN, readN_all_succeed N _ 0 N (by omega) hN]
    simp [advanceReadHead]

/-- Claim C6 witness: a fresh default ring buffer, 3 writes, then 3
successful reads and a failing 4th read. -/
theorem C6_witness :
    (3 : Nat) ≤ 3 ∧ (3 : Nat) < 2 ^ 64 ∧
    ((readN (writeN mkRingBuffer 3) 3).1 = true ∧
      (advanceReadHead (readN (writeN mkRingBuffer 3) 3).2).1 = false) :=
  ⟨le_rfl, by norm_num,
   (C6_ring_advance mkRingBuffer 3 3 le_rfl (by norm_num)).2.2.2.2⟩

/-- Claim C7: the ring buffer constructed with default arguments has
exactly 3 slots, each holding one pre-allocated buffer list of 2
channels by 512 sample frames. -/
theorem C7_default_ring_shape :
    (mkRingBuffer).slots.length = 3 ∧
    (mkRingBuffer).slots = [⟨2, 512⟩, ⟨2, 512⟩, ⟨2, 512⟩] :=
  ⟨rfl, rfl⟩

/-- Claim C8: destroying a hardware output node invokes `stop` first, so at
the instant the underlying unit is released the unit is no longer
running, for every prior state (whether or not the caller stopped it). -/
theorem C8_destroy_stops_first (s : OutputState) :
    (outputStateAtRelease s).running = false ∧
    (outputDestroy s).running = false ∧
    (outputDestroy s).released = true :=
  ⟨rfl, rfl, rfl⟩

/-- Claim C9: no sampler constructor writes `midiChannelInUse` — after any
of the three constructors the field still holds the indeterminate value
`junk` the memory had — so a `midiNoteOn` issued before the first
`setChannel` emits a status byte depending on that indeterminate value
(two different junk values yield two different status bytes). -/
theorem C9_channel_uninitialized (junk world type subType manufacturer : Nat)
    (orig : OfxAudioUnitSampler) :
    (mkSamplerDefault junk world).1.midiChannelInUse = junk ∧
    (mkSamplerTSM type subType manufacturer junk world).1.midiChannelInUse
      = junk ∧
    (samplerCopyCtor orig junk world).1.midiChannelInUse = junk ∧
    midiNoteOn (mkSamplerDefault junk world).1 60 100 =
      [⟨(0x9 <<< 4) ||| junk, 60, 100, 0⟩] ∧
    midiNoteOn (mkSamplerDefault 0 world).1 60 100 ≠
      midiNoteOn (mkSamplerDefault 1 world).1 60 100 := by
  refine ⟨rfl, rfl, rfl, ?_, ?_⟩
  · simp only [midiNoteOn, mkSamplerDefault, initUnit, kMidiMessage_NoteOn]
    norm_num
  · simp only [midiNoteOn, mkSamplerDefault, initUnit, kMidiMessage_NoteOn]
    decide

/-- Claim C10: assignment writes only the descriptor and the unit handle —
the target keeps its own `midiChannelInUse` — and copy-construction
leaves `midiChannelInUse` holding the indeterminate stack value rather
than copying the source's channel. -/
theorem C10_assign_keeps_channel (t s : OfxAudioUnitSampler)
    (junk world : Nat) :
    (samplerAssign false t s).midiChannelInUse = t.midiChannelInUse ∧
    (samplerAssign false t s).desc = s.desc ∧
    (samplerAssign false t s).unit = s.unit ∧
    (samplerCopyCtor s junk world).1.midiChannelInUse = junk := by
  simp [samplerAssign, samplerCopyCtor, initUnit]
